import Mathlib

/-!
Verification of the sample C program `src/samples/main.c`.

The program consists of two pure integer functions and a `main` entry
point.  C `int` is modelled as a 32-bit two's complement value: an
unbounded `Int` wrapped into the interval `[-2^31, 2^31)` after every
arithmetic operation.
-/

namespace Samples

/-- `2^31`, the magnitude of the smallest representable C `int`. -/
def intHalf : Int := 2147483648

/-- `2^32`, the number of distinct C `int` values. -/
def intMod : Int := 4294967296

/-- Wrap an unbounded integer into 32-bit two's complement range, the
value a C `int` holds after an arithmetic operation. -/
def wrap32 (x : Int) : Int := (x + intHalf) % intMod - intHalf

/-- `x` is representable as a C `int` (no overflow happened). -/
def inRange32 (x : Int) : Prop := -intHalf ≤ x ∧ x < intHalf

instance (x : Int) : Decidable (inRange32 x) :=
  inferInstanceAs (Decidable (-intHalf ≤ x ∧ x < intHalf))

/-- `static int local_f(int a) { return a * 3; }` -/
def local_f (a : Int) : Int := wrap32 (a * 3)

/-- `int global_f(int a) { return a * 6; }` (declared `extern` in the
source). -/
def global_f (a : Int) : Int := wrap32 (a * 6)

/-- `main`: `a = 5; b = 7; b = local_f(a); a = global_f(b); return a + b;`,
each assignment modelled by a `let` binding in source order. -/
def main : Int :=
  let a : Int := 5
  let b : Int := 7
  let b := local_f a
  let a := global_f b
  wrap32 (a + b)

/-- A variant of `main` whose dead initial store `b = 7` is replaced by an
arbitrary initial value `b0`; everything else is unchanged. -/
def main_var (b0 : Int) : Int :=
  let a : Int := 5
  let b := b0
  let b := local_f a
  let a := global_f b
  wrap32 (a + b)

/-- The process exit code: the low 8 bits of `main`'s return value. -/
def exitCode : Int := main % 256

/-- C1: running the program yields exit code 105; `main` returns 105,
computed as `local_f 5 = 15`, `global_f 15 = 90`, `90 + 15 = 105`. -/
theorem main_returns_105 :
    exitCode = 105 ∧ main = 105 ∧ local_f 5 = 15 ∧ global_f 15 = 90 := by
  refine ⟨?_, ?_, ?_, ?_⟩ <;> decide

/-- C2: whenever `3 * x` is representable as an `int`, `local_f x = 3 * x`. -/
theorem local_f_spec (x : Int) (h : inRange32 (3 * x)) :
    local_f x = 3 * x := by
  unfold inRange32 intHalf at h
  unfold local_f wrap32 intHalf intMod
  omega

/-- Witness for C2 at `x = 7`. -/
theorem local_f_spec_witness : inRange32 (3 * 7) ∧ local_f 7 = 3 * 7 :=
  ⟨by decide, local_f_spec 7 (by decide)⟩

/-- C3: whenever `6 * x` is representable as an `int`, `global_f x = 6 * x`. -/
theorem global_f_spec (x : Int) (h : inRange32 (6 * x)) :
    global_f x = 6 * x := by
  unfold inRange32 intHalf at h
  unfold global_f wrap32 intHalf intMod
  omega

/-- Witness for C3 at `x = 7`. -/
theorem global_f_spec_witness : inRange32 (6 * 7) ∧ global_f 7 = 6 * 7 :=
  ⟨by decide, global_f_spec 7 (by decide)⟩

/-- C4: `main` is the specified composition: its return value equals
`local_f 5 + global_f (local_f 5)`. -/
theorem main_is_composition :
    main = local_f 5 + global_f (local_f 5) := by
  decide

/-- C5: on the concrete input `a = 5`, `local_f` returns 15. -/
theorem local_f_at_5 : local_f 5 = 15 := by decide

/-- C6: on the concrete input `b = 15`, `global_f` returns 90. -/
theorem global_f_at_15 : global_f 15 = 90 := by decide

/-- C7: the concrete execution of `main` never overflows: the products
`5 * 3` and `15 * 6` and the sum `90 + 15` are all representable as `int`,
so each wrapped operation agrees with exact integer arithmetic and `main`
returns the exact value `90 + 15`. -/
theorem main_no_overflow :
    inRange32 (5 * 3) ∧ inRange32 (15 * 6) ∧ inRange32 (90 + 15) ∧
      local_f 5 = 5 * 3 ∧ global_f 15 = 15 * 6 ∧ main = 90 + 15 := by
  refine ⟨?_, ?_, ?_, ?_, ?_, ?_⟩ <;> decide

/-- C8: the program is deterministic: `local_f` and `global_f` are pure
functions of their single argument (equal inputs give equal outputs), and
every run of `main` returns the same value. -/
theorem program_deterministic :
    (∀ x y : Int, x = y → local_f x = local_f y ∧ global_f x = global_f y) ∧
      main = main := by
  exact ⟨fun x y h => ⟨by rw [h], by rw [h]⟩, rfl⟩

/-- Witness for C8 at `x = y = 4`. -/
theorem program_deterministic_witness :
    local_f 4 = local_f 4 ∧ global_f 4 = global_f 4 :=
  program_deterministic.1 4 4 rfl

/-- C9: the initial store `b = 7` in `main` is dead: replacing it by any
initial value `b0` leaves the return value unchanged. -/
theorem initial_b_is_dead_store (b0 : Int) : main_var b0 = main := rfl

/-- C10: `global_f` is the doubling of `local_f`: in the wrap-around
arithmetic of `int`, `global_f x` equals `2 * local_f x` wrapped, and when
neither `3 * x` nor `6 * x` overflows the exact equality
`global_f x = 2 * local_f x` holds. -/
theorem global_f_doubles_local_f (x : Int) :
    global_f x = wrap32 (2 * local_f x) ∧
      (inRange32 (3 * x) → inRange32 (6 * x) → global_f x = 2 * local_f x) := by
  constructor
  · unfold global_f local_f wrap32 intHalf intMod
    omega
  · intro h3 h6
    rw [local_f_spec x h3, global_f_spec x h6]
    ring

/-- Witness for C10 at `x = 2`. -/
theorem global_f_doubles_local_f_witness :
    global_f 2 = wrap32 (2 * local_f 2) ∧ global_f 2 = 2 * local_f 2 :=
  ⟨(global_f_doubles_local_f 2).1,
    (global_f_doubles_local_f 2).2 (by decide) (by decide)⟩

end Samples
